import Mathlib

/-!
Shallow embedding of the analytics engine of `src/python_services/main.py`
(Medical Analytics Service).  Python floats are modelled as exact rationals
(`ℚ`); the float literals `0.7` and `1.3` are idealised to `7/10` and `13/10`.
Where the Python code computes a square root (`pandas.Series.std`,
`numpy.std`, z-scores) the model carries the *square* of the quantity instead
(`std_deviation_sq`, `z_score_sq`), which keeps every value rational; since
`Real.sqrt` is strictly monotone on nonnegatives, every comparison the code
makes against a square root is stated in the equivalent squared form.
Degenerate float cases are modelled explicitly: a pandas/numpy float `NaN`
result (`Series.std()` at `N = 1`, zero-variance z-scores on numpy arrays)
is `Option.none`; the percentage-deviation expression of the summarizer,
by contrast, runs on *native Python floats* (`df.iterrows()` on this
mixed-dtype frame interleaves the float64 columns into an object array,
boxing each cell via `PyFloat_FromDouble`), so a zero-width reference range
raises `ZeroDivisionError` there — modelled as `Except.error` in the
propagating embedding (`pDevE`, `abnormalEntryE`) and as the marker value
`PDev.raisesZeroDivisionError` in the total pipeline used by the
response-level theorems, which are insensitive to that abort path.
Wall-clock timestamps (`datetime.now()`) are an explicit input parameter
of the response builders.
-/

namespace MedAnalytics

/-- Model of the pydantic `LabValue` input record (main.py lines 34-40).
`Optional[float]` fields become `Option ℚ`; pydantic performs no finiteness
or non-emptiness validation on `value`/`name`, so every inhabitant of this
structure is an accepted input. -/
structure LabValue where
  name : String
  value : ℚ
  unit : String
  reference_range_min : Option ℚ := none
  reference_range_max : Option ℚ := none
  category : Option String := none
deriving DecidableEq

/-- Arithmetic mean `sum / length`, as computed by `pandas.Series.mean` and
`np.mean` on a nonempty list (the code never calls it on an empty one). -/
def qmean (l : List ℚ) : ℚ := l.sum / l.length

/-- Sum of squared deviations from the mean, `Σ (x - mean)²`. -/
def sqDevSum (l : List ℚ) : ℚ := (l.map (fun x => (x - qmean l) ^ 2)).sum

/-- Population variance `Σ (x - mean)² / N`: the square of `np.std(data)`
(numpy default `ddof = 0`), used by `detect_outliers`. -/
def popVar (l : List ℚ) : ℚ := sqDevSum l / l.length

/-- Sample variance `Σ (x - mean)² / (N - 1)`: the square of
`pandas.Series.std()` (pandas default `ddof = 1`), used by
`analyze_lab_values`; only meaningful for `N ≥ 2`. -/
def sampleVar (l : List ℚ) : ℚ := sqDevSum l / (l.length - 1)

/-- Square of `df['value'].std()` on a nonempty column: pandas returns `NaN`
(here `none`) when `N = 1` because of the `ddof = 1` divisor `N - 1 = 0`,
and the sample standard deviation otherwise. -/
def pandasStdSq (l : List ℚ) : Option ℚ :=
  if l.length ≤ 1 then none else some (sampleVar l)

/-- Minimum of a nonempty list as `df['value'].min()`. -/
def listMin : List ℚ → ℚ
  | [] => 0
  | x :: xs => xs.foldl min x

/-- Maximum of a nonempty list as `df['value'].max()`. -/
def listMax : List ℚ → ℚ
  | [] => 0
  | x :: xs => xs.foldl max x

/-- The `value_range` sub-record of the statistical summary. -/
structure ValueRange where
  min : ℚ
  max : ℚ
deriving DecidableEq

/-- The `statistical_summary` block of `analyze_lab_values`
(main.py lines 110-117).  `std_deviation_sq` is the square of the reported
`std_deviation`, `none` standing for float `NaN`. -/
structure StatSummary where
  mean_values : ℚ
  std_deviation_sq : Option ℚ
  value_range : ValueRange
deriving DecidableEq

/-- Statistical summary over the value column: every field falls back to the
literal `0` when the DataFrame is empty (`... if not df.empty else 0`). -/
def statisticalSummary (values : List ℚ) : StatSummary :=
  if values.isEmpty then ⟨0, some 0, ⟨0, 0⟩⟩
  else ⟨qmean values, pandasStdSq values, ⟨listMin values, listMax values⟩⟩

/-- Direction of an abnormal deviation (`'low'`/`'high'`). -/
inductive Deviation
  | low
  | high
deriving DecidableEq

/-- Severity grade used by both the summarizer and the outlier detector. -/
inductive Severity
  | moderate
  | high
deriving DecidableEq

/-- The float expression
`abs((value - (ref_min + ref_max)/2) / ((ref_max - ref_min)/2)) * 100`
(main.py line 135), faithful to CPython semantics: the row cells reaching
it are *native Python floats* (`df.iterrows()` interleaves this
mixed-dtype frame into an object ndarray, boxing every float64 cell into a
Python `float`), so a zero half-range raises `ZeroDivisionError` — here an
`Except.error` carrying CPython's message — which the endpoint's blanket
`except Exception` (line 181) turns into an HTTP 500 for the whole
request.  (Both `x/0.0` and `0.0/0.0` raise for Python floats.) -/
def pDevE (value rmin rmax : ℚ) : Except String ℚ :=
  if (rmax - rmin) / 2 = 0 then Except.error "float division by zero"
  else Except.ok (|(value - (rmin + rmax) / 2) / ((rmax - rmin) / 2)| * 100)

/-- Percentage-deviation slot of a marker in the *total* pipeline model:
`fin q` is the computed value, and `raisesZeroDivisionError` marks a row at
which the real program raises `ZeroDivisionError` while building the
marker dict (so the real request aborts and returns nothing).  The
response-level theorems stated over the total pipeline (determinism up to
the timestamp, absence of input validation) do not depend on that abort
path; the error-propagating embedding is `pDevE` / `abnormalEntryE`. -/
inductive PDev
  | fin (q : ℚ)
  | raisesZeroDivisionError
deriving DecidableEq

/-- Value-level shadow of `pDevE` used by the total pipeline. -/
def pDev (value rmin rmax : ℚ) : PDev :=
  match pDevE value rmin rmax with
  | Except.ok q => PDev.fin q
  | Except.error _ => PDev.raisesZeroDivisionError

/-- One entry of `abnormal_markers` (main.py lines 128-136).  The
`reference_range` display string of the Python dict is not modelled; it is
a formatting artefact carrying no further information. -/
structure AbnormalMarker where
  name : String
  value : ℚ
  unit : String
  deviation : Deviation
  severity : Severity
  percentage_deviation : PDev
deriving DecidableEq

/-- Per-row abnormality classification of `analyze_lab_values`
(main.py lines 124-136) in the *total* pipeline model: a marker is built
iff both reference bounds are present (`pd.notna`) and the value lies
strictly outside them; severity is `high` iff `value < ref_min * 0.7` or
`value > ref_max * 1.3`.  A zero-width reference range yields a marker
whose deviation slot is the `PDev.raisesZeroDivisionError` abort marker;
the embedding that propagates that abort instead of recording it is
`abnormalEntryE` below. -/
def abnormalEntry (lab : LabValue) : Option AbnormalMarker :=
  match lab.reference_range_min, lab.reference_range_max with
  | some rmin, some rmax =>
    if lab.value < rmin ∨ lab.value > rmax then
      some
        { name := lab.name
          value := lab.value
          unit := lab.unit
          deviation := if lab.value < rmin then Deviation.low else Deviation.high
          severity :=
            if lab.value < rmin * (7 / 10) ∨ lab.value > rmax * (13 / 10) then
              Severity.high
            else Severity.moderate
          percentage_deviation := pDev lab.value rmin rmax }
    else none
  | _, _ => none

/-- Error-propagating embedding of one iteration of the abnormal-marker
loop (main.py lines 124-136).  When both bounds are present and the value
lies strictly outside them the code starts building the marker dict; its
`percentage_deviation` field raises `ZeroDivisionError` when the reference
range has zero width — the dict is never completed, nothing is appended,
and the whole request aborts (`except Exception` → HTTP 500).  Otherwise
the completed marker (or no marker, for an in-range row) is returned. -/
def abnormalEntryE (lab : LabValue) : Except String (Option AbnormalMarker) :=
  match lab.reference_range_min, lab.reference_range_max with
  | some rmin, some rmax =>
    if lab.value < rmin ∨ lab.value > rmax then
      match pDevE lab.value rmin rmax with
      | Except.error e => Except.error e
      | Except.ok q =>
        Except.ok (some
          { name := lab.name
            value := lab.value
            unit := lab.unit
            deviation := if lab.value < rmin then Deviation.low else Deviation.high
            severity :=
              if lab.value < rmin * (7 / 10) ∨ lab.value > rmax * (13 / 10) then
                Severity.high
              else Severity.moderate
            percentage_deviation := PDev.fin q })
    else Except.ok none
  | _, _ => Except.ok none

/-- The full `abnormal_markers` list: the row iteration of the DataFrame in
input order. -/
def abnormalMarkers (labs : List LabValue) : List AbnormalMarker :=
  labs.filterMap abnormalEntry

/-- Level of the single risk indicator emitted by `analyze_lab_values`. -/
inductive RiskIndLevel
  | low
  | moderate
  | high
deriving DecidableEq

/-- The one `risk_indicators` entry (main.py lines 153-174): `high` when any
abnormal marker is high-severity, else `moderate` when more than two are
moderate, else `low`.  The accompanying description/recommendation strings
are fixed per level and not modelled separately. -/
def riskIndicatorLevel (markers : List AbnormalMarker) : RiskIndLevel :=
  let highCount := (markers.filter (fun m => m.severity = Severity.high)).length
  let moderateCount := (markers.filter (fun m => m.severity = Severity.moderate)).length
  if highCount > 0 then RiskIndLevel.high
  else if moderateCount > 2 then RiskIndLevel.moderate
  else RiskIndLevel.low

/-- Per-category statistics of `categories_analysis` (main.py lines 138-151). -/
structure CategoryStats where
  marker_count : ℕ
  average_value : ℚ
  abnormal_count : ℕ
deriving DecidableEq

/-- Category of a lab row after the `lab.category or 'general'` default. -/
def labCategory (lab : LabValue) : String := lab.category.getD "general"

/-- First-seen-order deduplication, as `pandas.Series.unique` on the
category column. -/
def firstSeen (l : List String) : List String :=
  l.foldl (fun acc c => if acc.contains c then acc else acc ++ [c]) []

/-- Category of the first row whose name matches, mirroring
`df[df['name'] == lab['name']]['category'].iloc[0]` (main.py line 150). -/
def firstCategoryOfName (labs : List LabValue) (n : String) : String :=
  match labs.find? (fun lab => lab.name = n) with
  | some lab => labCategory lab
  | none => "general"

/-- The `categories_analysis` block: for each first-seen category, its row
count, mean value, and the number of abnormal markers whose (first matching
row's) category equals it. -/
def categoriesAnalysis (labs : List LabValue) : List (String × CategoryStats) :=
  (firstSeen (labs.map labCategory)).map fun c =>
    let catData := labs.filter (fun lab => labCategory lab = c)
    (c,
      { marker_count := catData.length
        average_value := qmean (catData.map (fun lab => lab.value))
        abnormal_count :=
          ((abnormalMarkers labs).filter
            (fun m => firstCategoryOfName labs m.name = c)).length })

/-- The `data` payload of `analyze_lab_values` minus the `patient_info`
envelope (which is modelled in `AnalyzeResponse`). -/
structure AnalysisResults where
  total_markers : ℕ
  statistical_summary : StatSummary
  abnormal_markers : List AbnormalMarker
  categories_analysis : List (String × CategoryStats)
  risk_indicator : RiskIndLevel
deriving DecidableEq

/-- Pure analysis pipeline of `analyze_lab_values` (main.py lines 82-179):
no input validation happens anywhere on the path, every request list is
analysed. -/
def analyzeResults (labs : List LabValue) : AnalysisResults :=
  let markers := abnormalMarkers labs
  { total_markers := labs.length
    statistical_summary := statisticalSummary (labs.map (fun lab => lab.value))
    abnormal_markers := markers
    categories_analysis := categoriesAnalysis labs
    risk_indicator := riskIndicatorLevel markers }

/-- Full response of `analyze_lab_values`, `patient_info` included; the
`analysis_date` field is `datetime.now().isoformat()`, injected here as the
explicit clock argument `now`. -/
structure AnalyzeResponse where
  patient_id : Option Int
  patient_name : Option String
  analysis_date : String
  results : AnalysisResults
deriving DecidableEq

/-- Response builder for `/analyze-labs`. -/
def analyzeLabValues (pid : Option Int) (pname : Option String) (now : String)
    (labs : List LabValue) : AnalyzeResponse :=
  { patient_id := pid
    patient_name := pname
    analysis_date := now
    results := analyzeResults labs }

/-- Insertion of a value into a sorted list (ascending). -/
def insertSorted (x : ℚ) : List ℚ → List ℚ
  | [] => [x]
  | y :: ys => if x ≤ y then x :: y :: ys else y :: insertSorted x ys

/-- Ascending sort, as numpy sorts the data internally for `np.percentile`. -/
def sortQ (l : List ℚ) : List ℚ := l.foldr insertSorted []

/-- Linear-interpolation percentile, the numpy default: with `s` the sorted
data and `h = (N - 1) * p / 100`, the result is
`s[⌊h⌋] + (h - ⌊h⌋) * (s[⌊h⌋ + 1] - s[⌊h⌋])`.  The percentage `p` is the
natural-number literal the code passes (25 or 75), so `⌊h⌋` is the natural
division `(N - 1) * p / 100`. -/
def percentileLin (l : List ℚ) (p : ℕ) : ℚ :=
  let s := sortQ l
  let f : ℕ := (l.length - 1) * p / 100
  let h : ℚ := (((l.length - 1) * p : ℕ) : ℚ) / 100
  let lower := s.getD f 0
  lower + (h - (f : ℚ)) * (s.getD (f + 1) lower - lower)

/-- Outlier-detection method tag (`'z_score'` / `'iqr'` / `'both'`). -/
inductive OMethod
  | z_score
  | iqr
  | both
deriving DecidableEq

/-- Z-score flag of `detect_outliers` (main.py lines 206-208) in squared
form: `|value - mean| / populationStd > 2` iff `(value - mean)² > 4 · var`
when `var > 0`; when `var = 0` every z-score is the float `NaN` (`0/0`) and
`NaN > 2` is false, hence the `0 < var` conjunct. -/
def zFlagged (m v x : ℚ) : Bool :=
  decide (0 < v ∧ (x - m) ^ 2 > 4 * v)

/-- High-severity z test `z > 3` of line 229, in the same squared form. -/
def zHighSeverity (m v x : ℚ) : Bool :=
  decide (0 < v ∧ (x - m) ^ 2 > 9 * v)

/-- One entry of the `outliers` list (main.py lines 221-230).  `z_score_sq`
is the square of the reported `z_score`, `none` standing for the `NaN`
produced when the population standard deviation is zero. -/
structure OutlierRecord where
  name : String
  value : ℚ
  z_score_sq : Option ℚ
  method : OMethod
  severity : Severity
deriving DecidableEq

/-- The `statistics` block of the outlier response (main.py lines 236-245);
`std_sq` is the square of the reported population `std`. -/
structure OutlierStats where
  total_markers : ℕ
  outlier_count : ℕ
  outlier_percentage : ℚ
  mean : ℚ
  std_sq : ℚ
  q1 : ℚ
  q3 : ℚ
  iqr : ℚ
deriving DecidableEq

/-- The `data` payload of `detect_outliers`: either the short-input message
with an empty outlier list, or the outlier records plus statistics. -/
structure OutlierData where
  outliers : List OutlierRecord
  message : Option String
  statistics : Option OutlierStats
deriving DecidableEq

/-- `detect_outliers` (main.py lines 186-247).  Fewer than 3 values returns
the empty list with the explanatory message and no statistics; otherwise
the union of the z-score and IQR index sets is reported (in index order —
the Python `set` iteration order is unspecified, and no claim depends on
the order of several outliers). -/
def detectOutliers (labs : List LabValue) : OutlierData :=
  let values := labs.map (fun lab => lab.value)
  if values.length < 3 then
    { outliers := []
      message := some "Insufficient data points for outlier detection (minimum 3 required)"
      statistics := none }
  else
    let m := qmean values
    let v := popVar values
    let q1 := percentileLin values 25
    let q3 := percentileLin values 75
    let iqr := q3 - q1
    let lowerBound := q1 - 3 / 2 * iqr
    let upperBound := q3 + 3 / 2 * iqr
    let iqrFlag : ℚ → Bool := fun x => decide (x < lowerBound ∨ x > upperBound)
    let outliers :=
      (labs.filter fun lab => zFlagged m v lab.value || iqrFlag lab.value).map fun lab =>
        let x := lab.value
        { name := lab.name
          value := x
          z_score_sq := if v = 0 then none else some ((x - m) ^ 2 / v)
          method :=
            if zFlagged m v x && iqrFlag x then OMethod.both
            else if zFlagged m v x then OMethod.z_score
            else OMethod.iqr
          severity := if zHighSeverity m v x then Severity.high else Severity.moderate }
    { outliers := outliers
      message := none
      statistics := some
        { total_markers := values.length
          outlier_count := outliers.length
          outlier_percentage := (outliers.length : ℚ) / values.length * 100
          mean := m
          std_sq := v
          q1 := q1
          q3 := q3
          iqr := iqr } }

/-- Does `p` occur at the head of `s`? -/
def startsWithSeg : List Char → List Char → Bool
  | [], _ => true
  | _ :: _, [] => false
  | a :: asl, b :: bs => a = b && startsWithSeg asl bs

/-- Contiguous-substring test, the Python `marker in normalized_name`. -/
def containsSeg (p : List Char) : List Char → Bool
  | [] => p.isEmpty
  | c :: t => startsWithSeg p (c :: t) || containsSeg p t

/-- Name normalisation of the risk scorer (main.py line 356):
`name.lower().replace(' ', '_').replace('-', '_')`, character-wise. -/
def normalizeName (s : String) : String :=
  String.mk (s.data.map fun c =>
    let d := c.toLower
    if d = ' ' ∨ d = '-' then '_' else d)

/-- The hardcoded condition → marker-keyword table (main.py lines 346-353),
in insertion order. -/
def riskFactors : List (String × List String) :=
  [("cardiovascular", ["cholesterol_total", "ldl", "hdl", "triglycerides", "crp", "homocysteine"]),
   ("diabetes", ["glucose", "hba1c", "insulin", "c_peptide"]),
   ("liver", ["alt", "ast", "bilirubin", "albumin", "alp"]),
   ("kidney", ["creatinine", "bun", "egfr", "protein"]),
   ("thyroid", ["tsh", "t4", "t3", "reverse_t3"]),
   ("inflammation", ["crp", "esr", "il6", "tnf_alpha"])]

/-- A measurement matches a condition when any keyword is a substring of its
normalised name (main.py line 366). -/
def matchesCondition (markers : List String) (lab : LabValue) : Bool :=
  markers.any fun mk => containsSeg mk.data (normalizeName lab.name).data

/-- Python float truthiness of an `Optional[float]`: `None` and `0.0` are
falsy, every other rational is truthy. -/
def truthyQ : Option ℚ → Bool
  | none => false
  | some q => decide (q ≠ 0)

/-- The abnormality test of the risk scorer (main.py lines 370-372):
`if lab.reference_range_min and lab.reference_range_max:` uses Python
*truthiness*, so a bound equal to `0` disables the check exactly like a
missing bound; only then is `value < min or value > max` consulted. -/
def riskAbnormal (lab : LabValue) : Bool :=
  truthyQ lab.reference_range_min && truthyQ lab.reference_range_max &&
    decide (lab.value < lab.reference_range_min.getD 0 ∨
      lab.value > lab.reference_range_max.getD 0)

/-- Risk level thresholds of main.py line 376. -/
def riskLevelOf (p : ℚ) : RiskIndLevel :=
  if p < 25 then RiskIndLevel.low
  else if p < 50 then RiskIndLevel.moderate
  else RiskIndLevel.high

/-- Per-condition entry of `risk_scores` (main.py lines 378-384). -/
structure RiskScore where
  risk_percentage : ℚ
  risk_level : RiskIndLevel
  markers_evaluated : List String
  abnormal_markers : ℕ
  total_markers : ℕ
deriving DecidableEq

/-- The `risk_scores` table of `calculate_risk_assessment` (main.py lines
360-384): for each condition of the table, the matching measurements are
collected and the abnormal ones counted; a condition with no matching
marker is skipped entirely. -/
def riskScores (labs : List LabValue) : List (String × RiskScore) :=
  riskFactors.filterMap fun cm =>
    let matching := labs.filter (matchesCondition cm.2)
    if matching.isEmpty then none
    else
      let ab := (matching.filter riskAbnormal).length
      let p := (ab : ℚ) / matching.length * 100
      some (cm.1,
        { risk_percentage := p
          risk_level := riskLevelOf p
          markers_evaluated := matching.map (fun lab => lab.name)
          abnormal_markers := ab
          total_markers := matching.length })

/-- The `overall_health_score` computation (main.py lines 386-391):
`max(0, 100 - np.mean(riskPercentages))` when any condition scored,
the default literal `85` otherwise.  (The response then displays
`round(score, 1)`; the rounding is display formatting of this value.) -/
def overallHealthScore (labs : List LabValue) : ℚ :=
  let scores := riskScores labs
  if scores.isEmpty then 85
  else max 0 (100 - qmean (scores.map fun s => s.2.risk_percentage))

/-- Example measurement of the spec: glucose 130 mg/dL against range 70-99. -/
def glucoseLab : LabValue :=
  { name := "glucose", value := 130, unit := "mg/dL",
    reference_range_min := some 70, reference_range_max := some 99 }

/-- A measurement whose name matches no keyword of the risk table. -/
def sodiumLab : LabValue :=
  { name := "sodium", value := 140, unit := "mmol/L",
    reference_range_min := some 135, reference_range_max := some 145 }

/-- The outlier example of the spec: values `[10, 10, 10, 10, 50]`. -/
def exOutlierLabs : List LabValue :=
  [{ name := "a", value := 10, unit := "u" },
   { name := "b", value := 10, unit := "u" },
   { name := "c", value := 10, unit := "u" },
   { name := "d", value := 10, unit := "u" },
   { name := "e", value := 50, unit := "u" }]

/-- A measurement with a zero-width reference range not containing its value. -/
def zeroWidthLab : LabValue :=
  { name := "x", value := 5, unit := "u",
    reference_range_min := some 3, reference_range_max := some 3 }

/-- A measurement with an empty name, which the spec says must be rejected. -/
def emptyNameLab : LabValue :=
  { name := "", value := 5, unit := "u" }

/-- Modelled from the spec: the *population* standard deviation (squared)
the spec prescribes for the summary, `Σ (x - mean)² / N` — stated only to
be compared against what `statisticalSummary` actually computes. -/
def specPopulationStdSq (l : List ℚ) : ℚ := sqDevSum l / l.length

theorem riskScores_glucose :
    riskScores [glucoseLab] =
      [("diabetes", ⟨100, RiskIndLevel.high, ["glucose"], 1, 1⟩)] := by
  have m1 : matchesCondition ["cholesterol_total", "ldl", "hdl", "triglycerides", "crp", "homocysteine"] glucoseLab = false := rfl
  have m2 : matchesCondition ["glucose", "hba1c", "insulin", "c_peptide"] glucoseLab = true := rfl
  have m3 : matchesCondition ["alt", "ast", "bilirubin", "albumin", "alp"] glucoseLab = false := rfl
  have m4 : matchesCondition ["creatinine", "bun", "egfr", "protein"] glucoseLab = false := rfl
  have m5 : matchesCondition ["tsh", "t4", "t3", "reverse_t3"] glucoseLab = false := rfl
  have m6 : matchesCondition ["crp", "esr", "il6", "tnf_alpha"] glucoseLab = false := rfl
  have hab : riskAbnormal glucoseLab = true := rfl
  have hname : glucoseLab.name = "glucose" := rfl
  norm_num [riskScores, riskFactors, List.filterMap_cons, List.filter_cons, m1, m2,
    m3, m4, m5, m6, hab, hname, riskLevelOf]

theorem riskScores_sodium : riskScores [sodiumLab] = [] := by
  have m1 : matchesCondition ["cholesterol_total", "ldl", "hdl", "triglycerides", "crp", "homocysteine"] sodiumLab = false := rfl
  have m2 : matchesCondition ["glucose", "hba1c", "insulin", "c_peptide"] sodiumLab = false := rfl
  have m3 : matchesCondition ["alt", "ast", "bilirubin", "albumin", "alp"] sodiumLab = false := rfl
  have m4 : matchesCondition ["creatinine", "bun", "egfr", "protein"] sodiumLab = false := rfl
  have m5 : matchesCondition ["tsh", "t4", "t3", "reverse_t3"] sodiumLab = false := rfl
  have m6 : matchesCondition ["crp", "esr", "il6", "tnf_alpha"] sodiumLab = false := rfl
  simp [riskScores, riskFactors, List.filterMap_cons, List.filter_cons, m1, m2, m3, m4, m5, m6]

/-- C1, counterexample.  The claim's standard deviation is wrong on the
code twice over: for the one-element set `[5]` the code's
`df['value'].std()` is `NaN` (`none`), not the claimed `0`; and for
`[0, 2]` the code computes the sample variance `2` (divide by `N - 1`)
where the claimed population convention (divide by `N`,
`specPopulationStdSq`) gives `1`. -/
theorem C1_counterexample :
    (statisticalSummary [(5 : ℚ)]).std_deviation_sq = none ∧
    (none : Option ℚ) ≠ some 0 ∧
    (statisticalSummary [(0 : ℚ), 2]).std_deviation_sq = some 2 ∧
    specPopulationStdSq [(0 : ℚ), 2] = 1 ∧
    (statisticalSummary [(0 : ℚ), 2]).std_deviation_sq ≠
      some (specPopulationStdSq [(0 : ℚ), 2]) := by
  refine ⟨?_, by simp, ?_, ?_, ?_⟩
  · norm_num [statisticalSummary, pandasStdSq]
  · norm_num [statisticalSummary, pandasStdSq, sampleVar, sqDevSum, qmean]
  · norm_num [specPopulationStdSq, sqDevSum, qmean]
  · norm_num [statisticalSummary, pandasStdSq, sampleVar, sqDevSum, qmean,
      specPopulationStdSq]

/-- C1, amended.  `summarize` returns `0` for every summary field
(mean, std, min, max) on the empty set; for `N = 1` the standard deviation
is the float `NaN` (pandas `ddof = 1`), not `0`; and for `N ≥ 2` it is the
*sample* standard deviation, i.e. its square is `Σ (x - mean)² / (N - 1)`. -/
theorem C1_summary_fields (vals : List ℚ) :
    (vals = [] → statisticalSummary vals = ⟨0, some 0, ⟨0, 0⟩⟩) ∧
    (vals.length = 1 → (statisticalSummary vals).std_deviation_sq = none) ∧
    (2 ≤ vals.length →
      (statisticalSummary vals).std_deviation_sq =
        some (sqDevSum vals / ((vals.length : ℚ) - 1))) := by
  refine ⟨fun h => by simp [statisticalSummary, h], fun h => ?_, fun h => ?_⟩
  · have hne : vals.isEmpty = false := by
      cases vals with
      | nil => simp at h
      | cons a t => simp
    simp [statisticalSummary, hne, pandasStdSq, h]
  · have hne : vals.isEmpty = false := by
      cases vals with
      | nil => simp at h
      | cons a t => simp
    have hgt : ¬ vals.length ≤ 1 := by omega
    simp [statisticalSummary, hne, pandasStdSq, hgt, sampleVar]

/-- C1, witness for `C1_summary_fields` at the inputs `[]`, `[5]` and
`[0, 2]`. -/
theorem C1_summary_fields_witness :
    statisticalSummary ([] : List ℚ) = ⟨0, some 0, ⟨0, 0⟩⟩ ∧
    (statisticalSummary [(5 : ℚ)]).std_deviation_sq = none ∧
    (statisticalSummary [(0 : ℚ), 2]).std_deviation_sq =
      some (sqDevSum [(0 : ℚ), 2] / ((([(0 : ℚ), 2] : List ℚ).length : ℚ) - 1)) :=
  ⟨(C1_summary_fields []).1 rfl,
   (C1_summary_fields [(5 : ℚ)]).2.1 rfl,
   (C1_summary_fields [(0 : ℚ), 2]).2.2 (by norm_num)⟩

/-- C2, counterexample.  On `[10, 10, 10, 10, 50]` the single outlier
record carries method `iqr`, not the claimed `both`: the z-score of index 4
is exactly `2.0` (`z² = 4`) and the strict test `z > 2` does not flag it. -/
theorem C2_counterexample :
    ((detectOutliers exOutlierLabs).outliers.map (fun r => r.method)) = [OMethod.iqr] ∧
    OMethod.iqr ≠ OMethod.both := by
  constructor
  · norm_num [detectOutliers, exOutlierLabs, qmean, popVar, sqDevSum, percentileLin,
      sortQ, insertSorted, zFlagged, zHighSeverity]
  · simp

/-- C2, amended.  On `[10, 10, 10, 10, 50]` the mean is 18 and the
population variance 256 (std 16), so index 4 sits exactly on the `z = 2`
boundary and the strict `z > 2` test does *not* flag it; the IQR method
(Q1 = Q3 = 10) flags it alone, so the record's method is `iqr` with
severity `moderate` and `z² = 4`. -/
theorem C2_boundary_outlier :
    qmean (exOutlierLabs.map (fun lab => lab.value)) = 18 ∧
    popVar (exOutlierLabs.map (fun lab => lab.value)) = 256 ∧
    zFlagged 18 256 50 = false ∧
    detectOutliers exOutlierLabs =
      ⟨[⟨"e", 50, some 4, OMethod.iqr, Severity.moderate⟩], none,
        some ⟨5, 1, 20, 18, 256, 10, 10, 0⟩⟩ := by
  refine ⟨?_, ?_, ?_, ?_⟩
  · norm_num [qmean, exOutlierLabs]
  · norm_num [popVar, sqDevSum, qmean, exOutlierLabs]
  · norm_num [zFlagged]
  · norm_num [detectOutliers, exOutlierLabs, qmean, popVar, sqDevSum, percentileLin,
      sortQ, insertSorted, zFlagged, zHighSeverity]

/-- C3.  With `referenceMin = referenceMax = a`: a measurement with
`value = a` is never classified abnormal (no marker, no error); any other
value is classified abnormal — the abnormal branch is taken and the marker
construction begins — and its `percentageDeviation` computation fails with
`ZeroDivisionError` (a DivisionUndefined-class error, the first of the
claim's two documented conventions): the nonzero offset is divided by the
zero half-range between native Python floats, the request aborts, and no
other value is ever produced. -/
theorem C3_zero_width_range (lab : LabValue) (a : ℚ)
    (hmin : lab.reference_range_min = some a)
    (hmax : lab.reference_range_max = some a) :
    (lab.value = a → abnormalEntryE lab = Except.ok none) ∧
    (lab.value ≠ a →
      abnormalEntryE lab = Except.error "float division by zero") := by
  constructor
  · intro hv
    simp [abnormalEntryE, hmin, hmax, hv]
  · intro hv
    have hcond : lab.value < a ∨ lab.value > a := lt_or_gt_of_ne hv
    have hden : (a - a) / 2 = 0 := by ring_nf
    simp [abnormalEntryE, hmin, hmax, hcond, pDevE, hden]

/-- C3, witness for `C3_zero_width_range` at value 5 (and value 3) against
the range `[3, 3]`. -/
theorem C3_zero_width_range_witness :
    abnormalEntryE zeroWidthLab = Except.error "float division by zero" ∧
    abnormalEntryE { zeroWidthLab with value := 3 } = Except.ok none :=
  ⟨(C3_zero_width_range zeroWidthLab 3 rfl rfl).2 (by norm_num [zeroWidthLab]),
   (C3_zero_width_range { zeroWidthLab with value := 3 } 3 rfl rfl).1 rfl⟩

/-- C4.  With both reference bounds present, a measurement is classified
abnormal — a marker is emitted, or the request aborts mid-construction on
a zero-width range — iff its value lies strictly outside
`[referenceMin, referenceMax]` (the abort happens exactly for out-of-range
values when `referenceMin = referenceMax`); an emitted marker's severity is
`high` iff `value < referenceMin * 0.7` or `value > referenceMax * 1.3`,
else `moderate`; and the glucose example (130 against 70-99) is abnormal
with severity `high` and percentage deviation `9100/29 ≈ 313.8` (within
`0.01` of `313.8`). -/
theorem C4_abnormality_severity :
    (∀ (lab : LabValue) (a b : ℚ), lab.reference_range_min = some a →
      lab.reference_range_max = some b →
      (abnormalEntryE lab ≠ Except.ok none ↔ lab.value < a ∨ lab.value > b)) ∧
    (∀ (lab : LabValue) (a b : ℚ), lab.reference_range_min = some a →
      lab.reference_range_max = some b →
      (abnormalEntryE lab = Except.error "float division by zero" ↔
        ((lab.value < a ∨ lab.value > b) ∧ a = b))) ∧
    (∀ (lab : LabValue) (a b : ℚ) (m : AbnormalMarker),
      lab.reference_range_min = some a → lab.reference_range_max = some b →
      abnormalEntryE lab = Except.ok (some m) →
      (m.severity = Severity.high ↔
        lab.value < a * (7 / 10) ∨ lab.value > b * (13 / 10))) ∧
    abnormalEntryE glucoseLab =
      Except.ok (some ⟨"glucose", 130, "mg/dL", Deviation.high, Severity.high,
        PDev.fin (9100 / 29)⟩) ∧
    |(9100 : ℚ) / 29 - 3138 / 10| < 1 / 100 := by
  refine ⟨?_, ?_, ?_, ?_, by
    rw [abs_of_nonpos (by norm_num : (9100 : ℚ) / 29 - 3138 / 10 ≤ 0)]
    norm_num⟩
  · intro lab a b hmin hmax
    by_cases hc : lab.value < a ∨ lab.value > b
    · cases hp : pDevE lab.value a b <;>
        simp [abnormalEntryE, hmin, hmax, hc, hp]
    · simp [abnormalEntryE, hmin, hmax, hc]
  · intro lab a b hmin hmax
    by_cases hc : lab.value < a ∨ lab.value > b
    · by_cases hab : a = b
      · subst hab
        have hden : (a - a) / 2 = 0 := by ring_nf
        simp [abnormalEntryE, hmin, hmax, hc, pDevE, hden]
      · have hden : (b - a) / 2 ≠ 0 := by
          intro h
          apply hab
          linarith [(div_eq_zero_iff.mp h).resolve_right (by norm_num : (2 : ℚ) ≠ 0)]
        simp [abnormalEntryE, hmin, hmax, hc, pDevE, hden, hab]
    · simp [abnormalEntryE, hmin, hmax, hc]
  · intro lab a b m hmin hmax hm
    simp only [abnormalEntryE, hmin, hmax] at hm
    by_cases hc : lab.value < a ∨ lab.value > b
    · rw [if_pos hc] at hm
      cases hp : pDevE lab.value a b with
      | error e =>
        rw [hp] at hm
        exact absurd hm (by simp)
      | ok q =>
        rw [hp] at hm
        simp only [Except.ok.injEq, Option.some.injEq] at hm
        subst hm
        by_cases hs : lab.value < a * (7 / 10) ∨ lab.value > b * (13 / 10)
        · simp [hs]
        · simp [hs]
    · rw [if_neg hc] at hm
      exact absurd hm (by simp)
  · norm_num [abnormalEntryE, glucoseLab, pDevE, abs_of_nonneg]

/-- C4, witness for `C4_abnormality_severity` at the glucose example. -/
theorem C4_abnormality_severity_witness :
    abnormalEntryE glucoseLab ≠ Except.ok none ∧
    (∃ m, abnormalEntryE glucoseLab = Except.ok (some m) ∧
      m.severity = Severity.high) := by
  have h1 := (C4_abnormality_severity.1 glucoseLab 70 99 rfl rfl).mpr
    (by norm_num [glucoseLab])
  have h4 := C4_abnormality_severity.2.2.2.1
  refine ⟨h1, ⟨_, h4, ?_⟩⟩
  exact (C4_abnormality_severity.2.2.1 glucoseLab 70 99 _ rfl rfl h4).mpr
    (by norm_num [glucoseLab])

/-- C5.  When at least one condition scored (`riskScores ≠ []`), the overall
health score is `100` minus the arithmetic mean of the per-condition risk
percentages, clamped to be nonnegative; when no condition of the table
matches any measurement, the score is the default literal `85`. -/
theorem C5_overall_health_score :
    (∀ labs : List LabValue, riskScores labs ≠ [] →
      overallHealthScore labs =
        max 0 (100 -
          ((riskScores labs).map (fun s => s.2.risk_percentage)).sum /
            ((riskScores labs).length : ℚ))) ∧
    (∀ labs : List LabValue,
      (∀ cm ∈ riskFactors, ∀ lab ∈ labs, matchesCondition cm.2 lab = false) →
      overallHealthScore labs = 85) := by
  constructor
  · intro labs h
    have hne : (riskScores labs).isEmpty = false := by
      simpa [List.isEmpty_iff] using h
    simp [overallHealthScore, hne, qmean]
  · intro labs h
    have hscores : riskScores labs = [] := by
      rw [riskScores, List.filterMap_eq_nil_iff]
      intro cm hcm
      have hfil : labs.filter (matchesCondition cm.2) = [] :=
        List.filter_eq_nil_iff.mpr (fun lab hlab => by simp [h cm hcm lab hlab])
      simp [hfil]
    simp [overallHealthScore, hscores]

/-- C5, witness for `C5_overall_health_score`: one abnormal diabetes marker
gives score `max 0 (100 - 100) = 0`; a set matching no condition gives the
default `85`. -/
theorem C5_overall_health_score_witness :
    overallHealthScore [glucoseLab] = 0 ∧ overallHealthScore [sodiumLab] = 85 := by
  constructor
  · have h := C5_overall_health_score.1 [glucoseLab] (by rw [riskScores_glucose]; simp)
    rw [h, riskScores_glucose]
    norm_num
  · exact C5_overall_health_score.2 [sodiumLab] (by decide)

/-- C6, counterexample.  The response of `analyze_lab_values` embeds
`datetime.now().isoformat()` as `analysis_date`, so two runs over the same
LabValueSet at different clock readings are not bit-identical. -/
theorem C6_counterexample :
    analyzeLabValues none none "2026-01-01T00:00:00" [] ≠
      analyzeLabValues none none "2026-01-01T00:00:01" [] := by
  intro h
  have hd := congrArg AnalyzeResponse.analysis_date h
  simp [analyzeLabValues] at hd

/-- C6, amended.  The summarizer is a pure function of the LabValueSet and
the injected clock reading: every response field except `analysis_date`
(the wall-clock timestamp) is identical across two runs on the same input,
with no hidden random state. -/
theorem C6_deterministic_except_date (pid : Option Int) (pname : Option String)
    (labs : List LabValue) (t₁ t₂ : String) :
    (analyzeLabValues pid pname t₁ labs).results =
      (analyzeLabValues pid pname t₂ labs).results ∧
    (analyzeLabValues pid pname t₁ labs).patient_id =
      (analyzeLabValues pid pname t₂ labs).patient_id ∧
    (analyzeLabValues pid pname t₁ labs).patient_name =
      (analyzeLabValues pid pname t₂ labs).patient_name :=
  ⟨rfl, rfl, rfl⟩

/-- C7, counterexample.  A measurement with an empty name is not rejected:
the analysis runs to completion and its statistics are computed from the
supposedly invalid measurement (here mean `5` over one marker). -/
theorem C7_counterexample :
    emptyNameLab.name = "" ∧
    (analyzeResults [emptyNameLab]).total_markers = 1 ∧
    (analyzeResults [emptyNameLab]).statistical_summary.mean_values = 5 := by
  refine ⟨rfl, rfl, ?_⟩
  norm_num [analyzeResults, emptyNameLab, statisticalSummary, qmean]

/-- C7, amended.  No validation is performed: every input list — including
measurements with empty names — is analysed; the result always covers all
`labs.length` measurements and its statistical summary does not depend on
the names at all (erasing every name to `""` leaves it unchanged). -/
theorem C7_no_validation (labs : List LabValue) :
    (analyzeResults labs).total_markers = labs.length ∧
    (analyzeResults (labs.map fun lab => { lab with name := "" })).statistical_summary =
      (analyzeResults labs).statistical_summary := by
  refine ⟨rfl, ?_⟩
  have hmap : (labs.map fun lab => { lab with name := "" : LabValue }).map
      (fun lab => lab.value) = labs.map (fun lab => lab.value) := by
    rw [List.map_map]
    rfl
  simp only [analyzeResults, hmap]

/-- C8.  Every condition entry emitted in the risk report has a risk
percentage in `[0, 100]` and evaluated at least one matched marker: a
condition with zero matched markers is skipped, so no `0 / 0` entry is
ever emitted. -/
theorem C8_risk_percentage_bounds (labs : List LabValue) (c : String)
    (s : RiskScore) (h : (c, s) ∈ riskScores labs) :
    0 ≤ s.risk_percentage ∧ s.risk_percentage ≤ 100 ∧ 0 < s.total_markers := by
  simp only [riskScores] at h
  rw [List.mem_filterMap] at h
  obtain ⟨cm, hcm, heq⟩ := h
  by_cases hE : (labs.filter (matchesCondition cm.2)).isEmpty = true
  · rw [if_pos hE] at heq
    exact absurd heq (by simp)
  · rw [if_neg hE, Option.some.injEq, Prod.mk.injEq] at heq
    obtain ⟨-, hs⟩ := heq
    subst hs
    have hn : 0 < (labs.filter (matchesCondition cm.2)).length := by
      rcases Nat.eq_zero_or_pos (labs.filter (matchesCondition cm.2)).length with h0 | h0
      · exact absurd (by simpa [List.isEmpty_iff] using List.length_eq_zero.mp h0) hE
      · exact h0
    have hk : ((labs.filter (matchesCondition cm.2)).filter riskAbnormal).length ≤
        (labs.filter (matchesCondition cm.2)).length := List.length_filter_le _ _
    have hnq : (0 : ℚ) < ((labs.filter (matchesCondition cm.2)).length : ℚ) := by
      exact_mod_cast hn
    have hdiv : (((labs.filter (matchesCondition cm.2)).filter riskAbnormal).length : ℚ) /
        ((labs.filter (matchesCondition cm.2)).length : ℚ) ≤ 1 :=
      (div_le_one hnq).mpr (by exact_mod_cast hk)
    refine ⟨?_, ?_, hn⟩
    · positivity
    · calc (((labs.filter (matchesCondition cm.2)).filter riskAbnormal).length : ℚ) /
            ((labs.filter (matchesCondition cm.2)).length : ℚ) * 100
          ≤ 1 * 100 := by
            exact mul_le_mul_of_nonneg_right hdiv (by norm_num)
        _ = 100 := by norm_num

/-- C8, witness for `C8_risk_percentage_bounds` at the diabetes entry of
the glucose example. -/
theorem C8_risk_percentage_bounds_witness :
    0 ≤ (⟨100, RiskIndLevel.high, ["glucose"], 1, 1⟩ : RiskScore).risk_percentage ∧
    (⟨100, RiskIndLevel.high, ["glucose"], 1, 1⟩ : RiskScore).risk_percentage ≤ 100 ∧
    0 < (⟨100, RiskIndLevel.high, ["glucose"], 1, 1⟩ : RiskScore).total_markers :=
  C8_risk_percentage_bounds [glucoseLab] "diabetes" _
    (by rw [riskScores_glucose]; exact List.mem_singleton.mpr rfl)

/-- C9.  With fewer than 3 values, `detect_outliers` returns the empty
outlier list together with the explanatory note, and raises no error. -/
theorem C9_short_input (labs : List LabValue) (h : labs.length < 3) :
    (detectOutliers labs).outliers = [] ∧
    (detectOutliers labs).message =
      some "Insufficient data points for outlier detection (minimum 3 required)" := by
  constructor
  · simp [detectOutliers, h]
  · simp [detectOutliers, h]

/-- C9, witness for `C9_short_input` at a one-element input. -/
theorem C9_short_input_witness :
    (detectOutliers [{ name := "a", value := 1, unit := "u" }]).outliers = [] ∧
    (detectOutliers [{ name := "a", value := 1, unit := "u" }]).message =
      some "Insufficient data points for outlier detection (minimum 3 required)" :=
  C9_short_input [{ name := "a", value := 1, unit := "u" }] (by norm_num)

/-- C10.  In the risk scorer's abnormality test, a reference bound equal to
`0` is falsy in Python and disables the whole check exactly like a missing
bound: whatever the other bound and the value (even one far outside the
range), the measurement is never counted abnormal, and the zero-bound case
coincides with the missing-bound case. -/
theorem C10_zero_bound_is_missing (lab : LabValue) :
    riskAbnormal { lab with reference_range_min := some 0 } = false ∧
    riskAbnormal { lab with reference_range_min := none } = false ∧
    riskAbnormal { lab with reference_range_max := some 0 } = false ∧
    riskAbnormal { lab with reference_range_max := none } = false ∧
    riskAbnormal { lab with reference_range_min := some 0 } =
      riskAbnormal { lab with reference_range_min := none } := by
  refine ⟨?_, ?_, ?_, ?_, ?_⟩ <;> simp [riskAbnormal, truthyQ]

end MedAnalytics
